import Mathlib

/-!
Verification of the KJ async promise core (`src/kj/async-inl.h`).

Each C++ construct that the claims touch is shallowly embedded as an
executable Lean definition.  Machinery whose bodies live in `async.c++`
(not part of this tree) is modelled from the specification and marked as
such in its doc comment.
-/

set_option autoImplicit false

namespace kj

/-- Failure kinds carried by a `kj::Exception` (`Exception::Type`). -/
inductive ExceptionType where
  | FAILED
  | OVERLOADED
  | DISCONNECTED
  | UNIMPLEMENTED
deriving DecidableEq, Repr

/-- A throwable failure value: a kind plus a displayable description
(`kj::Exception`). -/
structure Exception where
  type : ExceptionType
  description : String
deriving DecidableEq, Repr

/-- The result carrier `ExceptionOrValue` / `ExceptionOr<T>`: an optional
value slot and an optional failure slot. -/
structure ExceptionOr (T : Type) where
  value : Option T
  exception : Option Exception
deriving DecidableEq, Repr

/-- `ExceptionOrValue::addException`: stores the failure only when no
failure is already stored (`if (this->exception == nullptr)`). -/
def ExceptionOr.addException {T : Type} (r : ExceptionOr T) (e : Exception) : ExceptionOr T :=
  match r.exception with
  | none => ⟨r.value, some e⟩
  | some _ => r

/-- Outcome of `convertToReturn`: either the function returns a value `v`
after raising the listed failure on the recoverable-exception channel
(`throwRecoverableException` followed by `return`; a caller whose
exception callback catches the recoverable failure continues and receives
`v`), or it unwinds fatally (`throwFatalException`), or it hits the
`KJ_UNREACHABLE` internal-invariant branch. -/
inductive ConvertOutcome (T : Type) where
  | ret (recoverable : Option Exception) (v : T)
  | fatal (e : Exception)
  | invariantViolation
deriving DecidableEq, Repr

/-- `convertToReturn(ExceptionOr<T>&&)` (async-inl.h lines 80-92):
value present: raise any failure recoverably, then return the value;
failure only: fatal; neither: `KJ_UNREACHABLE`. -/
def convertToReturn {T : Type} (result : ExceptionOr T) : ConvertOutcome T :=
  match result.value with
  | some v =>
    match result.exception with
    | some e => ConvertOutcome.ret (some e) v
    | none => ConvertOutcome.ret none v
  | none =>
    match result.exception with
    | some e => ConvertOutcome.fatal e
    | none => ConvertOutcome.invariantViolation

/-- `TransformPromiseNode::handle`: a continuation's outcome written into
an `ExceptionOr<T>`.  A returned value lands in the value slot; a thrown
failure (`PropagateException::Bottom`) lands in the failure slot. -/
def handle {T : Type} (x : Except Exception T) : ExceptionOr T :=
  match x with
  | Except.ok v => ⟨some v, none⟩
  | Except.error e => ⟨none, some e⟩

/-- `TransformPromiseNode::getImpl`: reads the dependency's settled result;
on a failure invokes the error continuation, on a value invokes the success
continuation, converting a continuation's thrown failure into the output's
failure slot via `handle`.  A continuation is embedded as a function into
`Except Exception T` (`Except.error` = the C++ callable threw). -/
def getImpl {A T : Type} (depResult : ExceptionOr A)
    (func : A → Except Exception T)
    (errorHandler : Exception → Except Exception T) : ExceptionOr T :=
  match depResult.exception with
  | some e => handle (errorHandler e)
  | none =>
    match depResult.value with
    | some v => handle (func v)
    | none => ⟨none, none⟩

/-- `ImmediatePromiseNode<T>::get`: moves the stored result out. -/
def immediatePromiseGet {T : Type} (result : ExceptionOr T) : ExceptionOr T :=
  result

/-- Modelled from the spec: `PropagateException`, the default error
continuation of `then()`, is declared in `async.h`, which is not part of
this tree.  The spec (§4.5) says the default error continuation
propagates the failure unchanged. -/
def propagateException {T : Type} : Exception → Except Exception T :=
  fun e => Except.error e

/-- `Promise<T>::catch_(errorHandler)` is `then(IdentityFunc, errorHandler)`
(async-inl.h lines 993-1002); with `IdentityFunc` (lines 967-989) returning
its argument, the resulting transform's `getImpl` is this function. -/
def catchGetImpl {T : Type} (depResult : ExceptionOr T)
    (errorHandler : Exception → Except Exception T) : ExceptionOr T :=
  getImpl depResult (fun v => Except.ok v) errorHandler

/-- The failure used in the end-to-end error-propagation scenario. -/
def boomException : Exception :=
  ⟨ExceptionType.FAILED, "boom"⟩

/-- The end-to-end scenario
`failed("boom").then(x -> x+1).catch_(e -> -1).wait()`: a broken immediate
node, a transform with the default error continuation, a `catch_`
transform, consumed by `wait`'s `convertToReturn`. -/
def scenarioErrorPropagation : ConvertOutcome Int :=
  convertToReturn
    (catchGetImpl
      (getImpl (immediatePromiseGet ⟨none, some boomException⟩)
        (fun x => Except.ok (x + 1)) propagateException)
      (fun _ => Except.ok (-1)))

/-- C++ types as far as the `then`/`maybeChain` dispatch cares: a promise
instantiation or any other (non-promise) type. -/
inductive CppType where
  | base (name : String)
  | promise (t : CppType)
deriving DecidableEq, Repr

/-- Shapes of promise-node graphs built by `then`. -/
inductive NodeShape where
  | leaf
  | transform (dep : NodeShape)
  | chain (inner : NodeShape)
deriving DecidableEq, Repr

/-- `maybeChain` (async-inl.h lines 645-653): the overload taking
`Promise<T>*` wraps the node in a `ChainPromiseNode`; the overload taking
any other `T*` returns the node unchanged. -/
def maybeChain (node : NodeShape) : CppType → NodeShape
  | CppType.promise _ => NodeShape.chain node
  | CppType.base _ => node

/-- `Promise<T>::then` (async-inl.h lines 952-963): builds a
`TransformPromiseNode` over the dependency and passes it through
`maybeChain` keyed on the continuation's result type. -/
def thenNode (depNode : NodeShape) (resultT : CppType) : NodeShape :=
  maybeChain (NodeShape.transform depNode) resultT

/-- `ChainPromises<R>` / `ReducePromises`: the promise type `then` returns;
`Promise<U>` stays `Promise<U>` (flattened), any other `R` becomes
`Promise<R>`. -/
def chainPromises : CppType → CppType
  | CppType.promise u => CppType.promise u
  | CppType.base s => CppType.promise (CppType.base s)

/-- One step of the array-join failure collection: a fired branch whose
slot holds a failure contributes it to the join's result via
`ExceptionOrValue::addException` (so only the first failure is kept). -/
def joinStep {T : Type} (acc : ExceptionOr (List T)) (part : ExceptionOr T) : ExceptionOr (List T) :=
  match part.exception with
  | some e => acc.addException e
  | none => acc

/-- Modelled from the spec: the bodies of `ArrayJoinPromiseNodeBase::get`
and `ArrayJoinPromiseNodeBase::Branch` live in `async.c++`, which is not
part of this tree; only their declarations (async-inl.h lines 700-737) and
`addException` are.  Per spec §4.9, each branch moves its dependency's
output into its slot and a slot holding a failure is latched into the
join's result (first failure wins, via `addException`); the consumer's
`get` yields the collected array on success or the latched failure. -/
def arrayJoinGet {T : Type} (parts : List (ExceptionOr T)) : ExceptionOr (List T) :=
  let acc := parts.foldl joinStep ⟨none, none⟩
  match acc.exception with
  | some _ => acc
  | none => ⟨some (parts.filterMap (fun p => p.value)), none⟩

/-- The failures among the dependencies' slots, in branch order. -/
def failuresOf {T : Type} (parts : List (ExceptionOr T)) : List Exception :=
  parts.filterMap (fun p => p.exception)

/-- State of an `AdapterPromiseNode<T, Adapter>`: the stored result, the
internal `waiting` flag, and whether `setReady` has armed the registered
`OnReadyEvent`. -/
structure AdapterPromiseNode (T : Type) where
  result : ExceptionOr T
  waiting : Bool
  readyArmed : Bool
deriving DecidableEq, Repr

/-- `AdapterPromiseNode::fulfill`: only while `waiting`, clear the flag,
store a fresh value result, and arm the registered event via `setReady`. -/
def AdapterPromiseNode.fulfill {T : Type} (s : AdapterPromiseNode T) (v : T) :
    AdapterPromiseNode T :=
  if s.waiting then ⟨⟨some v, none⟩, false, true⟩ else s

/-- `AdapterPromiseNode::reject`: only while `waiting`, clear the flag,
store a fresh failure result, and arm the registered event. -/
def AdapterPromiseNode.reject {T : Type} (s : AdapterPromiseNode T) (e : Exception) :
    AdapterPromiseNode T :=
  if s.waiting then ⟨⟨none, some e⟩, false, true⟩ else s

/-- `AdapterPromiseNode::isWaiting`. -/
def AdapterPromiseNode.isWaiting {T : Type} (s : AdapterPromiseNode T) : Bool :=
  s.waiting

/-- The exact exception `WeakFulfiller::disposeImpl` rejects with; this is
the failure the spec's taxonomy (§7) calls kind "broken fulfiller". -/
def brokenFulfillerException : Exception :=
  ⟨ExceptionType.FAILED, "PromiseFulfiller was destroyed without fulfilling the promise."⟩

/-- `WeakFulfiller<T>::disposeImpl` (async-inl.h lines 1222-1235), acting
on the attached adapter (`inner`): when the producer drops its fulfiller
handle, if an adapter is still attached and still waiting it is rejected
with `brokenFulfillerException`; afterwards the fulfiller is detached.
The returned value is the adapter's state after disposal (`none` when the
fulfiller was already detached, in which case it merely deletes itself). -/
def weakFulfillerDisposeImpl {T : Type} (inner : Option (AdapterPromiseNode T)) :
    Option (AdapterPromiseNode T) :=
  match inner with
  | none => none
  | some a =>
    if a.isWaiting then some (a.reject brokenFulfillerException) else some a

/-- An arming operation performed while an event is firing: arm some event
(identified by a numeric id) depth-first or breadth-first. -/
inductive ArmOp where
  | df (e : Nat)
  | bf (e : Nat)
deriving DecidableEq, Repr

/-- The loop's two main queues: the depth-first queue (popped first) and
the breadth-first queue. -/
structure EventQueues where
  depthFirst : List Nat
  breadthFirst : List Nat
deriving DecidableEq, Repr

/-- Queue state during a single `fire`, together with how many events have
been armed depth-first since the current callback started (the insertion
point into the head of the depth-first queue). -/
structure FireCtx where
  queues : EventQueues
  dfArmedCount : Nat
deriving DecidableEq, Repr

/-- Insert an element at a given position of a list. -/
def insertAt : List Nat → Nat → Nat → List Nat
  | xs, 0, e => e :: xs
  | [], _ + 1, e => [e]
  | x :: xs, n + 1, e => x :: insertAt xs n e

/-- Modelled from the spec: the body of `Event::armDepthFirst` lives in
`async.c++`, which is not part of this tree; only its declaration and
contract (async-inl.h lines 119-135) are.  Per that contract and spec
§4.1, an event armed depth-first during a fire is placed at the front of
the depth-first queue, after the events already armed depth-first during
the same fire (arm order preserved) and before everything previously
queued. -/
def armDepthFirst (c : FireCtx) (e : Nat) : FireCtx :=
  ⟨⟨insertAt c.queues.depthFirst c.dfArmedCount e, c.queues.breadthFirst⟩,
    c.dfArmedCount + 1⟩

/-- Modelled from the spec: the body of `Event::armBreadthFirst` lives in
`async.c++`.  Per its declared contract, the event is placed at the end of
the breadth-first queue. -/
def armBreadthFirst (c : FireCtx) (e : Nat) : FireCtx :=
  ⟨⟨c.queues.depthFirst, c.queues.breadthFirst ++ [e]⟩, c.dfArmedCount⟩

/-- Perform one arming operation. -/
def armStep (c : FireCtx) (op : ArmOp) : FireCtx :=
  match op with
  | ArmOp.df e => armDepthFirst c e
  | ArmOp.bf e => armBreadthFirst c e

/-- Queues after a single `fire` during which the listed arming operations
happened, starting from the given queues (insertion point at the front). -/
def fireArms (ops : List ArmOp) (q : EventQueues) : EventQueues :=
  (ops.foldl armStep ⟨q, 0⟩).queues

/-- The events armed depth-first by a list of operations, in arm order. -/
def dfEvents (ops : List ArmOp) : List Nat :=
  ops.filterMap (fun op => match op with | ArmOp.df e => some e | ArmOp.bf _ => none)

/-- The events armed breadth-first by a list of operations, in arm order. -/
def bfEvents (ops : List ArmOp) : List Nat :=
  ops.filterMap (fun op => match op with | ArmOp.df _ => none | ArmOp.bf e => some e)

/-- Dispatch policy of the loop (spec §4.1): pop the whole depth-first
queue in order before any breadth-first event. -/
def dispatchOrder (q : EventQueues) : List Nat :=
  q.depthFirst ++ q.breadthFirst

/-- A fork-hub payload: either a plainly copyable value, or an `Own<T>`
handle to a refcounted object (identified by the object's id; `addRef`
yields a new handle to the same object). -/
inductive Payload where
  | plain (s : String)
  | owned (objId : Nat)
deriving DecidableEq, Repr

/-- `copyOrAddRef` (async-inl.h lines 506-507): the generic overload
copies the value; the `Own<T>` overload returns `t->addRef()`, a fresh
handle denoting the same refcounted object. -/
def copyOrAddRef : Payload → Payload
  | Payload.plain s => Payload.plain s
  | Payload.owned i => Payload.owned i

/-- `ForkBranch<T>::get` (async-inl.h lines 517-527): copy the hub's
cached value (via `copyOrAddRef`) into the branch's own output if present,
else null; copy the cached failure; then release the hub. -/
def forkBranchGet (hubResult : ExceptionOr Payload) : ExceptionOr Payload :=
  ⟨hubResult.value.map copyOrAddRef, hubResult.exception⟩

/-- Result of `retryOnDisconnect`: how many times the function was
invoked, and the final outcome delivered to the caller. -/
structure RetryOutcome (T : Type) where
  calls : Nat
  result : Except Exception T
deriving Repr

/-- `RetryOnDisconnect_::apply` (async-inl.h lines 1083-1117): invoke the
function once (`evalNow` converts a synchronous throw into a failed
promise); `catch_` the failure: a DISCONNECTED failure triggers exactly
one further invocation whose outcome - value or failure - is final; any
other failure is re-raised unchanged.  The function's i-th invocation is
embedded as `f i` (`Except.error` = it threw or returned a failed
promise). -/
def retryOnDisconnect {T : Type} (f : Nat → Except Exception T) : RetryOutcome T :=
  match f 0 with
  | Except.ok v => ⟨1, Except.ok v⟩
  | Except.error e =>
    if e.type = ExceptionType.DISCONNECTED then ⟨2, f 1⟩
    else ⟨1, Except.error e⟩

/-- A concrete failure used by witnesses. -/
def xFailure : Exception := ⟨ExceptionType.FAILED, "x"⟩

/-- A second concrete failure used by witnesses. -/
def yFailure : Exception := ⟨ExceptionType.OVERLOADED, "y"⟩

/-- Concrete array-join dependency slots: one value, two failures. -/
def partsW : List (ExceptionOr Nat) :=
  [⟨some 1, none⟩, ⟨none, some xFailure⟩, ⟨none, some yFailure⟩]

/-- A concrete DISCONNECTED failure used by witnesses. -/
def discException : Exception := ⟨ExceptionType.DISCONNECTED, "lost"⟩

/-- A concrete retried function: fails DISCONNECTED on the first
invocation and succeeds on the second. -/
def retryF : Nat → Except Exception Nat :=
  fun n => if n = 0 then Except.error discException else Except.ok 42

/-- Inserting at the length of the left part of an append lands between
the two parts. -/
theorem insertAt_append (xs ys : List Nat) (a : Nat) :
    insertAt (xs ++ ys) xs.length a = xs ++ a :: ys := by
  induction xs with
  | nil => simp [insertAt]
  | cons x xs ih => simp [insertAt, ih]

/-- Arming during a fire, starting with `pre` events already inserted at
the head this fire: depth-first arms continue the head run in arm order,
breadth-first arms append at the tail. -/
theorem fireAux (ops : List ArmOp) :
    ∀ (pre df0 bf0 : List Nat),
      ops.foldl armStep ⟨⟨pre ++ df0, bf0⟩, pre.length⟩ =
        ⟨⟨pre ++ dfEvents ops ++ df0, bf0 ++ bfEvents ops⟩,
          pre.length + (dfEvents ops).length⟩ := by
  induction ops with
  | nil =>
    intro pre df0 bf0
    simp [dfEvents, bfEvents]
  | cons op ops ih =>
    intro pre df0 bf0
    cases op with
    | df e =>
      have h1 : armStep ⟨⟨pre ++ df0, bf0⟩, pre.length⟩ (ArmOp.df e) =
          ⟨⟨(pre ++ [e]) ++ df0, bf0⟩, (pre ++ [e]).length⟩ := by
        simp [armStep, armDepthFirst, insertAt_append]
      rw [List.foldl_cons, h1, ih]
      simp [dfEvents, bfEvents, List.filterMap_cons]
      omega
    | bf e =>
      have h1 : armStep ⟨⟨pre ++ df0, bf0⟩, pre.length⟩ (ArmOp.bf e) =
          ⟨⟨pre ++ df0, bf0 ++ [e]⟩, pre.length⟩ := by
        simp [armStep, armBreadthFirst]
      rw [List.foldl_cons, h1, ih]
      simp [dfEvents, bfEvents, List.filterMap_cons]

/-- The failure latched by the join fold is the already-latched one, else
the first failure among the parts. -/
theorem joinFold_exception {T : Type} (parts : List (ExceptionOr T)) :
    ∀ acc : ExceptionOr (List T),
      (parts.foldl joinStep acc).exception =
        (match acc.exception with
         | some e => some e
         | none => (failuresOf parts).head?) := by
  induction parts with
  | nil =>
    intro acc
    cases h : acc.exception <;> simp [failuresOf, h]
  | cons p ps ih =>
    intro acc
    rw [List.foldl_cons, ih]
    cases hp : p.exception with
    | none =>
      simp [joinStep, hp, failuresOf, List.filterMap_cons]
    | some e =>
      cases ha : acc.exception with
      | none =>
        simp [joinStep, hp, ExceptionOr.addException, ha, failuresOf, List.filterMap_cons]
      | some e0 =>
        simp [joinStep, hp, ExceptionOr.addException, ha, failuresOf, List.filterMap_cons]

/-- The join fold never touches the value slot. -/
theorem joinFold_value {T : Type} (parts : List (ExceptionOr T)) :
    ∀ acc : ExceptionOr (List T), (parts.foldl joinStep acc).value = acc.value := by
  induction parts with
  | nil => intro acc; rfl
  | cons p ps ih =>
    intro acc
    rw [List.foldl_cons, ih]
    cases hp : p.exception with
    | none => simp [joinStep, hp]
    | some e =>
      cases ha : acc.exception <;> simp [joinStep, hp, ExceptionOr.addException, ha]

/-- Claim C1: when the final result carrier holds both a value and a
failure, `convertToReturn` re-raises the failure on the
recoverable-exception channel and delivers the value as the return value,
so a caller that catches the recoverable failure still receives the
value. -/
theorem convertToReturn_both_delivers_value_and_reraises {T : Type} (v : T) (e : Exception) :
    convertToReturn ⟨some v, some e⟩ = ConvertOutcome.ret (some e) v :=
  rfl

/-- Claim C2: a settled transform node invokes the error continuation on
a dependency failure and the success continuation on a dependency value;
a failure thrown by either continuation lands in the output's failure
slot; consequently
`failed("boom").then(x -> x+1).catch_(e -> -1).wait()` returns `-1`. -/
theorem transform_then_catch_dispatch {A T : Type} :
    (∀ (d : ExceptionOr A) (f : A → Except Exception T)
        (h : Exception → Except Exception T) (e : Exception),
        d.exception = some e → getImpl d f h = handle (h e)) ∧
    (∀ (d : ExceptionOr A) (f : A → Except Exception T)
        (h : Exception → Except Exception T) (v : A),
        d.exception = none → d.value = some v → getImpl d f h = handle (f v)) ∧
    (∀ e : Exception, (handle (Except.error e) : ExceptionOr T) = ⟨none, some e⟩) ∧
    scenarioErrorPropagation = ConvertOutcome.ret none (-1) := by
  refine ⟨?_, ?_, fun e => rfl, rfl⟩
  · intro d f h e he
    simp [getImpl, he]
  · intro d f h v he hv
    simp [getImpl, he, hv]

/-- Witness for C2: the dispatch equations evaluated at concrete inputs. -/
theorem transform_then_catch_dispatch_witness :
    getImpl (⟨none, some boomException⟩ : ExceptionOr Int)
        (fun x => Except.ok (x + 1)) propagateException
      = handle (propagateException boomException) ∧
    getImpl (⟨some 1, none⟩ : ExceptionOr Int)
        (fun x => Except.ok (x + 1)) propagateException
      = handle (Except.ok (1 + 1 : Int)) :=
  ⟨(transform_then_catch_dispatch (A := Int) (T := Int)).1 _ _ _ _ rfl,
   (transform_then_catch_dispatch (A := Int) (T := Int)).2.1 _ _ _ _ rfl rfl⟩

/-- Claim C3: when the continuation's result type is a promise, `then`
wraps the transform node in a `ChainPromiseNode` via `maybeChain` and the
returned promise has the flat type `Promise<R>`; when the result type is
not a promise, no chain node is inserted and the transform node is
returned unchanged. -/
theorem then_chains_promise_results :
    (∀ (n : NodeShape) (u : CppType),
        thenNode n (CppType.promise u) = NodeShape.chain (NodeShape.transform n) ∧
        chainPromises (CppType.promise u) = CppType.promise u) ∧
    (∀ (n : NodeShape) (s : String),
        thenNode n (CppType.base s) = NodeShape.transform n ∧
        chainPromises (CppType.base s) = CppType.promise (CppType.base s)) :=
  ⟨fun _ _ => ⟨rfl, rfl⟩, fun _ _ => ⟨rfl, rfl⟩⟩

/-- Claim C4: the array-join latches only the first failure -
`addException` stores a failure only when none is stored yet - so the
consumer's `get` observes exactly the first failure even when several
dependencies fail. -/
theorem arrayJoin_latches_first_failure {T : Type} :
    (∀ (r : ExceptionOr T) (e : Exception),
        r.exception = none → (r.addException e).exception = some e) ∧
    (∀ (r : ExceptionOr T) (e e0 : Exception),
        r.exception = some e0 → r.addException e = r) ∧
    (∀ (parts : List (ExceptionOr T)) (e : Exception) (es : List Exception),
        failuresOf parts = e :: es → arrayJoinGet parts = ⟨none, some e⟩) := by
  refine ⟨?_, ?_, ?_⟩
  · intro r e h
    simp [ExceptionOr.addException, h]
  · intro r e e0 h
    simp [ExceptionOr.addException, h]
  · intro parts e es hfail
    have h1 := joinFold_exception parts ⟨none, none⟩
    have h2 := joinFold_value parts ⟨none, none⟩
    simp [hfail] at h1 h2
    have hacc : parts.foldl joinStep (⟨none, none⟩ : ExceptionOr (List T)) = ⟨none, some e⟩ := by
      cases hq : parts.foldl joinStep (⟨none, none⟩ : ExceptionOr (List T)) with
      | mk v ex =>
        rw [hq] at h1 h2
        simp at h1 h2
        simp [h1, h2]
    simp [arrayJoinGet, hacc]

/-- Witness for C4: two failing dependencies, only the first failure is
observed. -/
theorem arrayJoin_latches_first_failure_witness :
    ((⟨none, none⟩ : ExceptionOr Nat).addException xFailure).exception = some xFailure ∧
    (⟨none, some xFailure⟩ : ExceptionOr Nat).addException yFailure = ⟨none, some xFailure⟩ ∧
    arrayJoinGet partsW = ⟨none, some xFailure⟩ :=
  ⟨(arrayJoin_latches_first_failure (T := Nat)).1 _ xFailure rfl,
   (arrayJoin_latches_first_failure (T := Nat)).2.1 _ yFailure xFailure rfl,
   (arrayJoin_latches_first_failure (T := Nat)).2.2 partsW xFailure [yFailure] rfl⟩

/-- Claim C5: if the producer drops its fulfiller handle while the
promise is still waiting, the promise is automatically rejected with the
broken-fulfiller failure: the adapter stops waiting, stores that failure,
and arms the registered event. -/
theorem weakFulfiller_drop_rejects_broken {T : Type} (a : AdapterPromiseNode T)
    (hw : a.waiting = true) :
    weakFulfillerDisposeImpl (some a) = some (a.reject brokenFulfillerException) ∧
    (a.reject brokenFulfillerException).result = ⟨none, some brokenFulfillerException⟩ ∧
    (a.reject brokenFulfillerException).waiting = false ∧
    (a.reject brokenFulfillerException).readyArmed = true := by
  refine ⟨?_, ?_, ?_, ?_⟩ <;>
    simp [weakFulfillerDisposeImpl, AdapterPromiseNode.isWaiting,
      AdapterPromiseNode.reject, hw]

/-- Witness for C5: a fresh waiting adapter whose fulfiller is dropped. -/
theorem weakFulfiller_drop_rejects_broken_witness :
    weakFulfillerDisposeImpl (some (⟨⟨none, none⟩, true, false⟩ : AdapterPromiseNode Nat)) =
        some ((⟨⟨none, none⟩, true, false⟩ : AdapterPromiseNode Nat).reject
          brokenFulfillerException) ∧
    ((⟨⟨none, none⟩, true, false⟩ : AdapterPromiseNode Nat).reject
        brokenFulfillerException).result = ⟨none, some brokenFulfillerException⟩ ∧
    ((⟨⟨none, none⟩, true, false⟩ : AdapterPromiseNode Nat).reject
        brokenFulfillerException).waiting = false ∧
    ((⟨⟨none, none⟩, true, false⟩ : AdapterPromiseNode Nat).reject
        brokenFulfillerException).readyArmed = true :=
  weakFulfiller_drop_rejects_broken (T := Nat) ⟨⟨none, none⟩, true, false⟩ rfl

/-- Claim C6: on an adapter-backed node the first `fulfill`/`reject`
clears the waiting flag, stores the corresponding result, and arms the
registered event; once the node is no longer waiting, both operations are
no-ops leaving the stored result and readiness unchanged. -/
theorem adapter_first_settle_wins {T : Type} :
    (∀ (s : AdapterPromiseNode T) (v : T),
        s.waiting = true → s.fulfill v = ⟨⟨some v, none⟩, false, true⟩) ∧
    (∀ (s : AdapterPromiseNode T) (e : Exception),
        s.waiting = true → s.reject e = ⟨⟨none, some e⟩, false, true⟩) ∧
    (∀ (s : AdapterPromiseNode T) (v : T), s.waiting = false → s.fulfill v = s) ∧
    (∀ (s : AdapterPromiseNode T) (e : Exception), s.waiting = false → s.reject e = s) := by
  refine ⟨?_, ?_, ?_, ?_⟩ <;> intro s x h <;>
    simp [AdapterPromiseNode.fulfill, AdapterPromiseNode.reject, h]

/-- Witness for C6: a first fulfill settles the node; a later reject is a
no-op leaving the stored value in place. -/
theorem adapter_first_settle_wins_witness :
    (⟨⟨none, none⟩, true, false⟩ : AdapterPromiseNode Nat).fulfill 7 =
      ⟨⟨some 7, none⟩, false, true⟩ ∧
    (⟨⟨some 7, none⟩, false, true⟩ : AdapterPromiseNode Nat).reject boomException =
      ⟨⟨some 7, none⟩, false, true⟩ :=
  ⟨(adapter_first_settle_wins (T := Nat)).1 _ 7 rfl,
   (adapter_first_settle_wins (T := Nat)).2.2.2 _ boomException rfl⟩

/-- Claim C7: events armed depth-first during a fire end up at the front
of the depth-first queue in arm order - before everything previously
queued, hence before every breadth-first event - while breadth-first arms
during the fire are appended at the tail. -/
theorem fire_arm_ordering (ops : List ArmOp) (q : EventQueues) :
    fireArms ops q = ⟨dfEvents ops ++ q.depthFirst, q.breadthFirst ++ bfEvents ops⟩ ∧
    dispatchOrder (fireArms ops q) =
      dfEvents ops ++ (q.depthFirst ++ (q.breadthFirst ++ bfEvents ops)) := by
  obtain ⟨df0, bf0⟩ := q
  have h := fireAux ops [] df0 bf0
  simp at h
  have hq : fireArms ops ⟨df0, bf0⟩ = ⟨dfEvents ops ++ df0, bf0 ++ bfEvents ops⟩ := by
    unfold fireArms
    rw [h]
  refine ⟨hq, ?_⟩
  rw [hq]
  simp [dispatchOrder]

/-- Claim C8: a fork branch's `get` copies the hub's cached value into
its own output (via `copyOrAddRef`, whose `Own` overload clones a handle
to the same refcounted object) and copies the cached failure; since the
clone denotes the same payload, every branch of the same fork yields the
same result as the cached one, hence as each other. -/
theorem fork_branches_yield_same_result :
    (∀ r : ExceptionOr Payload,
        forkBranchGet r = ⟨r.value.map copyOrAddRef, r.exception⟩) ∧
    (∀ p : Payload, copyOrAddRef p = p) ∧
    (∀ r : ExceptionOr Payload, forkBranchGet r = r) := by
  have hc : ∀ p : Payload, copyOrAddRef p = p := by
    intro p
    cases p <;> rfl
  refine ⟨fun r => rfl, hc, ?_⟩
  intro r
  cases r with
  | mk v e => cases v <;> simp [forkBranchGet, hc]

/-- Claim C9: the empty-empty carrier at `wait`'s `convertToReturn` hits
the fatal internal-invariant branch (`KJ_UNREACHABLE`); under the node
contract that `get` wrote a value or a failure, that branch is
unreachable. -/
theorem convertToReturn_empty_is_invariant_violation {T : Type} :
    (∀ r : ExceptionOr T,
        r.value ≠ none ∨ r.exception ≠ none →
        convertToReturn r ≠ ConvertOutcome.invariantViolation) ∧
    convertToReturn (⟨none, none⟩ : ExceptionOr T) = ConvertOutcome.invariantViolation := by
  refine ⟨?_, rfl⟩
  intro r hr hcontra
  cases hv : r.value with
  | some v =>
    cases he : r.exception <;> simp [convertToReturn, hv, he] at hcontra
  | none =>
    cases he : r.exception with
    | some e => simp [convertToReturn, hv, he] at hcontra
    | none =>
      rcases hr with h1 | h2
      · exact h1 hv
      · exact h2 he

/-- Witness for C9: a carrier holding a value does not hit the
internal-invariant branch. -/
theorem convertToReturn_empty_is_invariant_violation_witness :
    convertToReturn (⟨some 5, none⟩ : ExceptionOr Nat) ≠ ConvertOutcome.invariantViolation :=
  (convertToReturn_empty_is_invariant_violation (T := Nat)).1 ⟨some 5, none⟩
    (Or.inl (by simp))

/-- Claim C10: `retryOnDisconnect(f)` invokes `f` once; exactly when that
invocation fails with a DISCONNECTED failure, `f` is invoked exactly one
more time and that second outcome - value or failure - is the final
result; a first failure of any other kind propagates unchanged with no
further retry. -/
theorem retryOnDisconnect_retries_once_on_disconnect {T : Type} :
    (∀ (f : Nat → Except Exception T) (v : T),
        f 0 = Except.ok v → retryOnDisconnect f = ⟨1, Except.ok v⟩) ∧
    (∀ (f : Nat → Except Exception T) (e : Exception),
        f 0 = Except.error e → e.type = ExceptionType.DISCONNECTED →
        retryOnDisconnect f = ⟨2, f 1⟩) ∧
    (∀ (f : Nat → Except Exception T) (e : Exception),
        f 0 = Except.error e → e.type ≠ ExceptionType.DISCONNECTED →
        retryOnDisconnect f = ⟨1, Except.error e⟩) ∧
    (∀ f : Nat → Except Exception T,
        (retryOnDisconnect f).calls = 2 ↔
          ∃ e, f 0 = Except.error e ∧ e.type = ExceptionType.DISCONNECTED) := by
  refine ⟨?_, ?_, ?_, ?_⟩
  · intro f v h0
    simp [retryOnDisconnect, h0]
  · intro f e h0 ht
    simp [retryOnDisconnect, h0, ht]
  · intro f e h0 ht
    simp [retryOnDisconnect, h0, ht]
  · intro f
    constructor
    · intro hc
      cases h0 : f 0 with
      | ok v => simp [retryOnDisconnect, h0] at hc
      | error e =>
        by_cases ht : e.type = ExceptionType.DISCONNECTED
        · exact ⟨e, rfl, ht⟩
        · simp [retryOnDisconnect, h0, ht] at hc
    · rintro ⟨e, h0, ht⟩
      simp [retryOnDisconnect, h0, ht]

/-- Witness for C10: a first DISCONNECTED failure triggers exactly one
retry whose outcome is final; a FAILED failure propagates with no
retry. -/
theorem retryOnDisconnect_retries_once_on_disconnect_witness :
    retryOnDisconnect retryF = ⟨2, retryF 1⟩ ∧
    retryOnDisconnect (fun _ => (Except.error boomException : Except Exception Nat)) =
      ⟨1, Except.error boomException⟩ :=
  ⟨(retryOnDisconnect_retries_once_on_disconnect (T := Nat)).2.1 retryF discException rfl rfl,
   (retryOnDisconnect_retries_once_on_disconnect (T := Nat)).2.2.1 _ boomException rfl
     (by simp [boomException])⟩

end kj
